import Mathlib

/-!
Shallow embedding of the MCPImages server (src/unnamed/part_001).

The repository is a single-file Node.js MCP server.  The parts relevant to
the claims are:

* `sanitizeFilename`, `buildPrompt` (lines 98-112): pure string helpers;
* `generateImagesAsync` (lines 125-164): validates the comma-separated word
  string, creates a job record in the `activeJobs` map and fires the
  background batch runner without awaiting it;
* `generateImagesInBackground` (lines 166-315): the batch runner loop —
  for each word it sets `status = 'generating'` / `currentWord`, performs
  the provider call (DALL-E or Stability branch), appends exactly one
  result object (success or failure) and sets `completedWords = i + 1`;
  after the loop it sets `status = 'completed'`, `endTime`, and deletes
  `currentWord`;
* `generateImagesSync` (lines 317-493): the synchronous twin;
* `checkStatus` (lines 496-525): read-only projection of a job record.

JavaScript values are embedded as follows: strings are `String`, numbers
that only ever hold sizes/counters are `Nat` (with `Option Nat` where the
source can produce `NaN`/`undefined` through `Number(...)` and array
destructuring), the `activeJobs : Map` is an association list, a `throw`
inside a function that the caller catches is `Except String`.

Interleaving: the runner is a single cooperative task; other tasks (for
example `checkStatus` calls) can only observe the job record while the
runner is suspended at an `await`.  The runner mutates the record only in
synchronous straight-line code between awaits, so the observable states
are: the record as created, the per-iteration state that holds during all
awaits of iteration `i` (`status = generating`, `currentWord = word i`,
`i` results appended), and the final completed state.  `obsTrace` below
lists exactly these states.  `writeTrace` additionally records the state
after each iteration's result-append + counter update (consecutive
synchronous assignments of the source are folded into one step, since no
observation can separate them).
-/

namespace MCPImages

/-- Job status strings of the source: 'started', 'generating', 'completed'
(lines 141, 182, 310). -/
inductive JobStatus where
  | started
  | generating
  | completed
deriving DecidableEq, Repr

/-- One element of `jobInfo.results` / the sync `results` array.  The source
pushes `{ url, alt, width, height, filename, word }` on success
(lines 223, 266-273) and `{ url: "", alt: "Failed to generate image for
<word>: <msg>", width: 0, height: 0, filename: "", word }` on failure
(lines 297-304).  `width`/`height` are `Option Nat`; `none` models the
JavaScript `NaN`/`undefined` that `Number` and array destructuring can
produce from a malformed `size` string. -/
structure ItemResult where
  url : String
  alt : String
  width : Option Nat
  height : Option Nat
  filename : String
  word : String
deriving DecidableEq, Repr

/-- The mutable job record stored in `activeJobs` (lines 139-151), plus the
`endTime` field added on completion (line 311) and the `currentWord` field
set during generation (line 183, deleted at line 312). -/
structure JobInfo where
  id : String
  status : JobStatus
  totalWords : Nat
  completedWords : Nat
  results : List ItemResult
  currentWord : Option String
  startTime : String
  endTime : Option String
  provider : String
  style : String
  background : String
  size : String
  quality : String
deriving DecidableEq, Repr

/-- Process-wide state: the `activeJobs` map (line 71) as an association
list, plus an abstract supply of fresh job identifiers (the source draws
them from `Date.now()` and `Math.random()`, line 138). -/
structure ServerState where
  activeJobs : List (String × JobInfo)
  idSupply : Nat
deriving DecidableEq, Repr

/-- JavaScript `String.prototype.trim()`: drop leading and trailing
whitespace.  `Char.isWhitespace` covers space, tab, CR and LF, the
whitespace characters that occur in this system's inputs. -/
def jsTrim (s : String) : String :=
  String.mk
    (((s.toList.dropWhile Char.isWhitespace).reverse.dropWhile
      Char.isWhitespace).reverse)

/-- JavaScript `String.prototype.toLowerCase()` on the ASCII strings this
system handles: char-wise lowering. -/
def jsToLower (s : String) : String :=
  String.mk (s.toList.map Char.toLower)

/-- JavaScript `String.prototype.split(sep)` for a one-character separator
(the source only splits on "," and "x"), at the char-list level: the
chunks between occurrences of the separator; the empty string splits to
`[""]` and a trailing separator yields a trailing empty chunk, as in JS. -/
def jsSplitList (sep : Char) : List Char → List (List Char)
  | [] => [[]]
  | c :: cs =>
    match jsSplitList sep cs, decide (c = sep) with
    | rest, true => [] :: rest
    | [], false => [[c]]
    | r :: rs, false => (c :: r) :: rs

def jsSplit (sep : Char) (s : String) : List String :=
  (jsSplitList sep s.toList).map String.mk

/-- `sanitizeFilename` (lines 110-112):
`word.trim().replace(/[^a-zA-Z0-9]/g, '_').toLowerCase()`.
`Char.isAlphanum` is ASCII `[a-zA-Z0-9]`, matching the regex; the
lowering after the replacement is char-wise. -/
def sanitizeFilename (word : String) : String :=
  String.mk ((jsTrim word).toList.map
    (fun c => Char.toLower (if c.isAlphanum then c else '_')))

/-- The style table of `buildPrompt` (lines 99-105).  `none` models a key
absent from the object. -/
def styles (key : String) : Option String :=
  if key = "realistic" then some "photorealistic, high detail, professional photography, "
  else if key = "cartoon" then some "cartoon style, vibrant colors, exaggerated features, "
  else if key = "abstract" then some "abstract art, geometric shapes, expressive, "
  else if key = "minimal" then some "minimalist, clean lines, simple composition"
  else none

/-- JavaScript `a || b` on possibly-absent strings: an empty string is
falsy, `undefined` is falsy. -/
def jsOrString : Option String → Option String → Option String
  | some s, b => if s.length > 0 then some s else b
  | none, b => b

/-- Interpolation of a possibly-`undefined` value into a template literal:
JavaScript renders `undefined` as the string "undefined". -/
def jsInterp : Option String → String
  | some s => s
  | none => "undefined"

/-- `buildPrompt` (lines 98-108):
`const stylePrompt = styles[style] || styles.ghibli;`
`return `<background> background, <stylePrompt>, <word>`;`  Note the
fallback key `ghibli` is looked up in the same table. -/
def buildPrompt (word style background : String) : String :=
  let stylePrompt := jsOrString (styles style) (styles "ghibli")
  background ++ " background, " ++ jsInterp stylePrompt ++ ", " ++ word

/-- The word-list parse shared by both paths (lines 127-129, 320-322):
`words.split(",").map(w => w.trim()).filter(w => w.length > 0)`. -/
def parseWordList (words : String) : List String :=
  ((jsSplit ',' words).map (fun w => jsTrim w)).filter
    (fun w => decide (0 < w.length))

/-- JavaScript `Number(s)` restricted to the way the source uses it on the
segments of `size.split('x')`: a string of decimal digits (after
whitespace trimming) parses to that number, the empty string to `0`
(JavaScript `Number("") === 0`), anything else is `none`, modelling
`NaN`. -/
def jsNumberNat (s : String) : Option Nat :=
  let cs := (jsTrim s).toList
  if cs.all Char.isDigit then
    some (cs.foldl (fun n c => n * 10 + (c.toNat - 48)) 0)
  else none

/-- `const [width, height] = size.split('x').map(Number)` (lines 171, 331).
Missing segments destructure to `undefined`, also modelled by `none`. -/
def parseSize (size : String) : Option Nat × Option Nat :=
  match (jsSplit 'x' size).map jsNumberNat with
  | [] => (none, none)
  | [w] => (w, none)
  | w :: h :: _ => (w, h)

/-- The per-batch constants the runner computes before its loop
(lines 170-171): the shared batch timestamp, the parsed width/height and
the configured output directory and style. -/
structure RunParams where
  imageDir : String
  style : String
  timestamp : String
  width : Option Nat
  height : Option Nat
deriving DecidableEq, Repr

/-- `filename = `<sanitizedWord>_<timestamp>.png`` (line 177); the
timestamp is the batch timestamp shared by every item of the job. -/
def itemFilename (p : RunParams) (word : String) : String :=
  sanitizeFilename word ++ "_" ++ p.timestamp ++ ".png"

/-- The one result object an iteration appends: the success shape of
lines 223 / 266-273 when the provider call succeeded (`filepath =
path.join(config.imageDir, filename)`, line 178), the failure shape of
lines 297-304 when the try-block threw `msg`. -/
def mkItemResult (p : RunParams) (word : String)
    (outcome : Except String Unit) : ItemResult :=
  match outcome with
  | .ok _ =>
    { url := "file://" ++ (p.imageDir ++ "/" ++ itemFilename p word)
      alt := p.style ++ " image of " ++ word
      width := p.width
      height := p.height
      filename := itemFilename p word
      word := word }
  | .error msg =>
    { url := ""
      alt := "Failed to generate image for " ++ word ++ ": " ++ msg
      width := some 0
      height := some 0
      filename := ""
      word := word }

/-- How the network can behave during one DALL-E item of the background
runner (lines 189-226).  `ok` = every await succeeded; `httpError` =
`!response.ok`, carrying the status code and the optional
`err.error?.message` extracted from the error body (`undefined` when the
body is not JSON, line 211); `downloadFailed` = the second fetch of the
image URL was `!ok` (line 219); `exn` = any other exception escaping an
await (network failure, malformed payload), carrying its message. -/
inductive DalleBgEvent where
  | ok
  | httpError (status : Nat) (apiMsg : Option String)
  | downloadFailed
  | exn (msg : String)
deriving DecidableEq, Repr

/-- How the network can behave during one Stability item of the background
runner (lines 228-286).  `nonOk` = axios resolved with status other than
200, carrying `response.data.toString()`; `abortError` = the 90 s timer
fired and aborted the request; `exn` = any other exception. -/
inductive StabilityBgEvent where
  | ok
  | nonOk (status : Nat) (body : String)
  | abortError
  | exn (msg : String)
deriving DecidableEq, Repr

/-- The DALL-E branch of the background runner's try-block (lines 189-226):
result `.ok ()` means the branch reached `success = true`; `.error msg`
means it threw `msg` into the outer per-item catch.  Throws
"Missing OPENAI_API_KEY" when the credential is absent (lines 191-193),
`err.error?.message || "HTTP <status>"` on a non-2xx response
(lines 210-213), "Download failed" when the image download is not ok
(line 219).  This branch attaches no AbortController and no timeout to its
fetch. -/
def dalleBgAttempt (apiKey : Option String) (ev : DalleBgEvent) :
    Except String Unit :=
  match apiKey with
  | none => .error "Missing OPENAI_API_KEY"
  | some _ =>
    match ev with
    | .ok => .ok ()
    | .httpError status apiMsg =>
        .error (apiMsg.getD ("HTTP " ++ toString status))
    | .downloadFailed => .error "Download failed"
    | .exn msg => .error msg

/-- The Stability branch of the background runner's try-block
(lines 228-286).  Throws "Missing STABILITY_API_KEY" when the credential is
absent (lines 229-231); on a non-200 status throws
`"Stability API error <status>: <body>"` (line 276), which the inner catch
rethrows unchanged since it is not an AbortError (line 283); an abort of
the 90 s timer surfaces as
"Stability API request timed out after 90 seconds" (lines 280-282). -/
def stabilityBgAttempt (apiKey : Option String) (ev : StabilityBgEvent) :
    Except String Unit :=
  match apiKey with
  | none => .error "Missing STABILITY_API_KEY"
  | some _ =>
    match ev with
    | .ok => .ok ()
    | .nonOk status body =>
        .error ("Stability API error " ++ toString status ++ ": " ++ body)
    | .abortError =>
        .error "Stability API request timed out after 90 seconds"
    | .exn msg => .error msg

/-- An outgoing provider request as each branch of the source constructs
it: the endpoint URL and the timeout attached to the request, `none` when
the branch installs no AbortController at all. -/
structure ProviderRequest where
  endpoint : String
  timeoutMs : Option Nat
deriving DecidableEq, Repr

/-- The DALL-E branch of the background runner (lines 195-208) calls
`fetch` with headers and body but no `signal`: no AbortController is
created and no timer is set in this branch. -/
def dalleBgRequest : ProviderRequest :=
  { endpoint := "https://api.openai.com/v1/images/generations"
    timeoutMs := none }

/-- The Stability branch of the background runner (lines 241-258) creates
an AbortController, arms `setTimeout(() => controller.abort(), 90000)` and
passes `controller.signal` to axios; it posts to the hard-coded `ultra`
URL rather than the configured endpoint. -/
def stabilityBgRequest : ProviderRequest :=
  { endpoint := "https://api.stability.ai/v2beta/stable-image/generate/ultra"
    timeoutMs := some 90000 }

/-- The DALL-E branch of the synchronous path (lines 353-371) arms a 60 s
abort timer and passes the signal to fetch. -/
def dalleSyncRequest : ProviderRequest :=
  { endpoint := "https://api.openai.com/v1/images/generations"
    timeoutMs := some 60000 }

/-- The Stability branch of the synchronous path (lines 424-437) arms a
90 s abort timer and posts to the configured `sd3` endpoint. -/
def stabilitySyncRequest : ProviderRequest :=
  { endpoint := "https://api.stability.ai/v2beta/stable-image/generate/sd3"
    timeoutMs := some 90000 }

/-- The provider dispatch of the background runner,
`switch (provider.toLowerCase())` (lines 188-290): the outcome of one
item's try-block as a function of the configured credentials and the
network events delivered to that item.  An unrecognized provider name
throws `"Unsupported provider: <provider>"` (line 289). -/
def bgAttempt (openaiKey stabilityKey : Option String) (provider : String)
    (envD : Nat → DalleBgEvent) (envS : Nat → StabilityBgEvent)
    (i : Nat) : Except String Unit :=
  if jsToLower provider = "dalle3" ∨ jsToLower provider = "dall-e-3" then
    dalleBgAttempt openaiKey (envD i)
  else if jsToLower provider = "stability" then
    stabilityBgAttempt stabilityKey (envS i)
  else
    .error ("Unsupported provider: " ++ provider)

/-- The two synchronous assignments at the top of iteration `i`
(lines 182-183): `jobInfo.status = 'generating'; jobInfo.currentWord =
word;`.  This is the state of the record during every await of the
iteration's provider call. -/
def bgStepMid (job : JobInfo) (word : String) : JobInfo :=
  { job with status := .generating, currentWord := some word }

/-- The synchronous tail of iteration `i`: exactly one result object is
pushed (line 223 / 266 on success, line 297 on failure) and then
`jobInfo.completedWords = i + 1` (line 307).  No await separates the push
from the counter update, so they form one step. -/
def bgStepPush (p : RunParams) (attempt : Nat → Except String Unit)
    (i : Nat) (word : String) (job : JobInfo) : JobInfo :=
  { job with
      results := job.results ++ [mkItemResult p word (attempt i)]
      completedWords := i + 1 }

/-- The record state after the loop of `generateImagesInBackground`
(lines 310-312): `status = 'completed'`, `endTime` set, `currentWord`
deleted.  The three assignments are consecutive synchronous statements. -/
def finishJob (endT : String) (job : JobInfo) : JobInfo :=
  { job with status := .completed, endTime := some endT, currentWord := none }

/-- The loop of `generateImagesInBackground` (lines 173-308), final state:
fold of `bgStepMid` + `bgStepPush` over the word list, with `i` the index
of the head word. -/
def bgLoopFinal (p : RunParams) (a : Nat → Except String Unit) :
    Nat → JobInfo → List String → JobInfo
  | _, job, [] => job
  | i, job, w :: ws =>
      bgLoopFinal p a (i + 1) (bgStepPush p a i w (bgStepMid job w)) ws

/-- The states of the record at the runner's suspension points: during the
awaits of iteration `i` the record holds the `bgStepMid` state.  (The
post-iteration state is not listed: the counter update is followed with no
intervening await by either the next iteration's header or the completion
block.) -/
def bgLoopObs (p : RunParams) (a : Nat → Except String Unit) :
    Nat → JobInfo → List String → List JobInfo
  | _, _, [] => []
  | i, job, w :: ws =>
      let mid := bgStepMid job w
      mid :: bgLoopObs p a (i + 1) (bgStepPush p a i w mid) ws

/-- Every state the record passes through inside the loop, one entry per
mutation step: the iteration header and the result-append + counter
update. -/
def bgLoopWrite (p : RunParams) (a : Nat → Except String Unit) :
    Nat → JobInfo → List String → List JobInfo
  | _, _, [] => []
  | i, job, w :: ws =>
      let mid := bgStepMid job w
      let done := bgStepPush p a i w mid
      mid :: done :: bgLoopWrite p a (i + 1) done ws

/-- A whole background run: the final record plus the record's state at
every suspension point (`obsTrace`, bracketed by the record as created and
the completed record) and at every mutation step (`writeTrace`). -/
structure BgRun where
  final : JobInfo
  obsTrace : List JobInfo
  writeTrace : List JobInfo

/-- `generateImagesInBackground` (lines 166-315), abstracted over the
per-item provider outcome `a` (instantiate with `bgAttempt` for the
concrete dispatch) and the completion timestamp. -/
def generateImagesInBackground (p : RunParams)
    (a : Nat → Except String Unit) (endT : String) (job0 : JobInfo)
    (words : List String) : BgRun :=
  let fin := finishJob endT (bgLoopFinal p a 0 job0 words)
  { final := fin
    obsTrace := job0 :: (bgLoopObs p a 0 job0 words ++ [fin])
    writeTrace := job0 :: (bgLoopWrite p a 0 job0 words ++ [fin]) }

/-- The job record as `generateImagesAsync` creates it (lines 139-151). -/
def mkJobInfo (jobId : String) (n : Nat)
    (startT provider style background size quality : String) : JobInfo :=
  { id := jobId
    status := .started
    totalWords := n
    completedWords := 0
    results := []
    currentWord := none
    startTime := startT
    endTime := none
    provider := provider
    style := style
    background := background
    size := size
    quality := quality }

/-- The immediate response of `generateImagesAsync` (lines 158-163). -/
structure GenResponse where
  jobId : String
  status : String
  message : String
  totalWords : Nat
deriving DecidableEq, Repr

/-- Result of one `generateImagesAsync` call: the value returned or the
error thrown, the server state after the call, and the id of the
background task it fired (if any). -/
structure AsyncOutcome where
  response : Except String GenResponse
  state : ServerState
  startedJob : Option String

/-- `generateImagesAsync` (lines 125-164): parse and filter the word list;
throw "No valid words provided." when it is empty (lines 131-133) —
before any job id is drawn, before `activeJobs.set` and before the
background task starts.  Otherwise allocate a fresh id, store the new
record and fire the runner.  `startT` stands for
`new Date().toISOString()`. -/
def generateImagesAsync (provider style background size quality : String)
    (startT : String) (words : String) (st : ServerState) : AsyncOutcome :=
  let wordList := parseWordList words
  if wordList.length = 0 then
    { response := .error "No valid words provided."
      state := st
      startedJob := none }
  else
    let jobId := "job_" ++ toString st.idSupply
    let jobInfo := mkJobInfo jobId wordList.length startT provider style
      background size quality
    { response := .ok
        { jobId := jobId
          status := "started"
          message := "Started generating " ++ toString wordList.length ++
            " images using " ++ provider ++
            ". Use checkStatus with jobId to monitor progress."
          totalWords := wordList.length }
      state := { activeJobs := st.activeJobs ++ [(jobId, jobInfo)]
                 idSupply := st.idSupply + 1 }
      startedJob := some jobId }

/-- `generateImagesSync` (lines 317-493): the same validation
(lines 320-326), then the sequential loop accumulating one result object
per word into a local array; no job record is involved.  The loop body is
the same append of `mkItemResult` outcomes, abstracted over the per-item
provider outcome `a`. -/
def syncLoop (p : RunParams) (a : Nat → Except String Unit) :
    Nat → List String → List ItemResult
  | _, [] => []
  | i, w :: ws => mkItemResult p w (a i) :: syncLoop p a (i + 1) ws

def generateImagesSync (p : RunParams) (a : Nat → Except String Unit)
    (words : String) : Except String (List ItemResult) :=
  let wordList := parseWordList words
  if wordList.length = 0 then .error "No valid words provided."
  else .ok (syncLoop p a 0 wordList)

/-- The response shape of `checkStatus` (lines 504-522): the always-present
fields, `currentWord` only while truthy, and `endTime`/`results`/
`successCount`/`failureCount` only once the job is completed. -/
structure StatusView where
  jobId : String
  status : JobStatus
  totalWords : Nat
  completedWords : Nat
  progress : String
  startTime : String
  currentWord : Option String
  endTime : Option String
  results : Option (List ItemResult)
  successCount : Option Nat
  failureCount : Option Nat
deriving DecidableEq, Repr

/-- The projection `checkStatus` builds from a found record
(lines 504-522).  `successCount` counts results with a truthy `url`
(line 520), `failureCount` those with a falsy one (line 521). -/
def statusViewOf (j : JobInfo) : StatusView :=
  { jobId := j.id
    status := j.status
    totalWords := j.totalWords
    completedWords := j.completedWords
    progress := toString j.completedWords ++ "/" ++ toString j.totalWords
    startTime := j.startTime
    currentWord :=
      match j.currentWord with
      | some w => if 0 < w.length then some w else none
      | none => none
    endTime := if j.status = .completed then j.endTime else none
    results := if j.status = .completed then some j.results else none
    successCount :=
      if j.status = .completed then
        some ((j.results.filter (fun r => decide (0 < r.url.length))).length)
      else none
    failureCount :=
      if j.status = .completed then
        some ((j.results.filter (fun r => decide (r.url.length = 0))).length)
      else none }

/-- `checkStatus` (lines 496-525): look the id up in `activeJobs`; throw
`"Job not found: <jobId>"` when absent (lines 499-502); otherwise return
the read-only projection.  The record itself is only read. -/
def checkStatus (st : ServerState) (jobId : String) :
    Except String StatusView :=
  match st.activeJobs.lookup jobId with
  | none => .error ("Job not found: " ++ jobId)
  | some j => .ok (statusViewOf j)

/-- A background run as `generateImagesAsync` fires it: the initial record
is the freshly created one, with `totalWords` the length of the parsed
word list (line 142). -/
def bgRunOf (p : RunParams) (a : Nat → Except String Unit)
    (endT jobId startT provider style background size quality : String)
    (words : List String) : BgRun :=
  generateImagesInBackground p a endT
    (mkJobInfo jobId words.length startT provider style background size
      quality) words

/-- Concrete run parameters for the example runs below. -/
def demoParams : RunParams :=
  { imageDir := "generated-images"
    style := "realistic"
    timestamp := "2025-01-01T00-00-00-000Z"
    width := some 1024
    height := some 1024 }

/-- A mock per-item adapter that fails on the second word only, as in the
spec's failure-isolation test. -/
def mockFailSecond : Nat → Except String Unit :=
  fun j => if j = 1 then .error "HTTP 500" else .ok ()

/-- A mock per-item adapter that always succeeds. -/
def mockAllOk : Nat → Except String Unit := fun _ => .ok ()

/-- A completed job record with one success and one failure, for the
status-query examples. -/
def demoCompletedJob : JobInfo :=
  { id := "job_0"
    status := .completed
    totalWords := 2
    completedWords := 2
    results :=
      [mkItemResult demoParams "cat" (.ok ()),
       mkItemResult demoParams "dog" (.error "HTTP 500")]
    currentWord := none
    startTime := "2025-01-01T00:00:00.000Z"
    endTime := some "2025-01-01T00:01:00.000Z"
    provider := "dalle3"
    style := "realistic"
    background := "white"
    size := "1024x1024"
    quality := "standard" }

/-- A registry holding the completed demo job. -/
def demoState : ServerState :=
  { activeJobs := [("job_0", demoCompletedJob)], idSupply := 1 }

/-! ## Helper lemmas about the batch loop -/

theorem mkItemResult_word (p : RunParams) (w : String)
    (o : Except String Unit) : (mkItemResult p w o).word = w := by
  cases o <;> rfl

theorem syncLoop_length (p : RunParams) (a : Nat → Except String Unit)
    (ws : List String) : ∀ i, (syncLoop p a i ws).length = ws.length := by
  induction ws with
  | nil => intro i; rfl
  | cons w ws ih => intro i; simp [syncLoop, ih]

theorem syncLoop_map_word (p : RunParams) (a : Nat → Except String Unit)
    (ws : List String) :
    ∀ i, (syncLoop p a i ws).map (fun r => r.word) = ws := by
  induction ws with
  | nil => intro i; rfl
  | cons w ws ih => intro i; simp [syncLoop, ih, mkItemResult_word]

theorem syncLoop_get? (p : RunParams) (a : Nat → Except String Unit)
    (ws : List String) :
    ∀ i j (hj : j < ws.length),
      (syncLoop p a i ws).get? j =
        some (mkItemResult p (ws.get ⟨j, hj⟩) (a (i + j))) := by
  induction ws with
  | nil => intro i j hj; exact absurd hj (Nat.not_lt_zero j)
  | cons w ws ih =>
    intro i j hj
    cases j with
    | zero => simp [syncLoop]
    | succ j' =>
      have hj' : j' < ws.length := Nat.lt_of_succ_lt_succ hj
      have harg : i + 1 + j' = i + (j' + 1) := by omega
      have h := ih (i + 1) j' hj'
      rw [harg] at h
      simpa [syncLoop, List.get?_cons_succ] using h

theorem bgLoopFinal_results (p : RunParams) (a : Nat → Except String Unit)
    (ws : List String) :
    ∀ i job, (bgLoopFinal p a i job ws).results =
      job.results ++ syncLoop p a i ws := by
  induction ws with
  | nil => intro i job; simp [bgLoopFinal, syncLoop]
  | cons w ws ih =>
    intro i job
    simp [bgLoopFinal, syncLoop, ih, bgStepPush, bgStepMid]

theorem bgLoopFinal_completedWords (p : RunParams)
    (a : Nat → Except String Unit) (ws : List String) :
    ∀ i job, job.completedWords = i →
      (bgLoopFinal p a i job ws).completedWords = i + ws.length := by
  induction ws with
  | nil => intro i job h; simpa [bgLoopFinal] using h
  | cons w ws ih =>
    intro i job h
    have := ih (i + 1) (bgStepPush p a i w (bgStepMid job w)) rfl
    simp only [bgLoopFinal, this, List.length_cons]
    omega

theorem bgLoopFinal_totalWords (p : RunParams)
    (a : Nat → Except String Unit) (ws : List String) :
    ∀ i job, (bgLoopFinal p a i job ws).totalWords = job.totalWords := by
  induction ws with
  | nil => intro i job; rfl
  | cons w ws ih => intro i job; simp [bgLoopFinal, ih, bgStepPush, bgStepMid]

theorem bgLoopFinal_endTime (p : RunParams)
    (a : Nat → Except String Unit) (ws : List String) :
    ∀ i job, (bgLoopFinal p a i job ws).endTime = job.endTime := by
  induction ws with
  | nil => intro i job; rfl
  | cons w ws ih => intro i job; simp [bgLoopFinal, ih, bgStepPush, bgStepMid]

theorem bgLoopObs_inv (p : RunParams) (a : Nat → Except String Unit)
    (ws : List String) :
    ∀ i job, job.results.length = i → job.completedWords = i →
      ∀ s ∈ bgLoopObs p a i job ws,
        s.status = .generating ∧ s.completedWords = s.results.length ∧
        s.totalWords = job.totalWords ∧ i ≤ s.completedWords ∧
        s.completedWords < i + ws.length := by
  induction ws with
  | nil => intro i job _ _ s hs; simp [bgLoopObs] at hs
  | cons w ws ih =>
    intro i job hres hcw s hs
    simp only [bgLoopObs, List.mem_cons] at hs
    rcases hs with rfl | hs
    · refine ⟨rfl, ?_, rfl, ?_, ?_⟩
      · simpa [bgStepMid] using hcw.trans hres.symm
      · simp [bgStepMid, hcw]
      · simp only [bgStepMid, hcw, List.length_cons]
        omega
    · have hres' : (bgStepPush p a i w (bgStepMid job w)).results.length
          = i + 1 := by simp [bgStepPush, bgStepMid, hres]
      have := ih (i + 1) (bgStepPush p a i w (bgStepMid job w)) hres' rfl s hs
      refine ⟨this.1, this.2.1, ?_, ?_, ?_⟩
      · rw [this.2.2.1]; simp [bgStepPush, bgStepMid]
      · omega
      · have := this.2.2.2.2; simp only [List.length_cons]; omega

theorem bgLoopWrite_inv (p : RunParams) (a : Nat → Except String Unit)
    (ws : List String) :
    ∀ i job, job.results.length = i → job.completedWords = i →
      ∀ s ∈ bgLoopWrite p a i job ws,
        s.status = .generating ∧ s.completedWords = s.results.length ∧
        s.totalWords = job.totalWords ∧ s.endTime = job.endTime ∧
        s.completedWords ≤ i + ws.length := by
  induction ws with
  | nil => intro i job _ _ s hs; simp [bgLoopWrite] at hs
  | cons w ws ih =>
    intro i job hres hcw s hs
    simp only [bgLoopWrite, List.mem_cons] at hs
    rcases hs with rfl | rfl | hs
    · refine ⟨rfl, ?_, rfl, rfl, ?_⟩
      · simpa [bgStepMid] using hcw.trans hres.symm
      · simp only [bgStepMid, hcw, List.length_cons]
        omega
    · refine ⟨rfl, ?_, rfl, rfl, ?_⟩
      · simp [bgStepPush, bgStepMid, hres]
      · simp only [bgStepPush, bgStepMid, List.length_cons]
        omega
    · have hres' : (bgStepPush p a i w (bgStepMid job w)).results.length
          = i + 1 := by simp [bgStepPush, bgStepMid, hres]
      have := ih (i + 1) (bgStepPush p a i w (bgStepMid job w)) hres' rfl s hs
      refine ⟨this.1, this.2.1, ?_, ?_, ?_⟩
      · rw [this.2.2.1]; simp [bgStepPush, bgStepMid]
      · rw [this.2.2.2.1]; simp [bgStepPush, bgStepMid]
      · have := this.2.2.2.2; simp only [List.length_cons]; omega

theorem bgLoopWrite_statuses (p : RunParams) (a : Nat → Except String Unit)
    (ws : List String) :
    ∀ i job, (bgLoopWrite p a i job ws).map (fun s => s.status) =
      List.replicate (2 * ws.length) .generating := by
  induction ws with
  | nil => intro i job; rfl
  | cons w ws ih =>
    intro i job
    have h2 : 2 * (ws.length + 1) = (2 * ws.length) + 1 + 1 := by omega
    simp [bgLoopWrite, ih, bgStepPush, bgStepMid, h2, List.replicate_succ]

theorem bgLoop_chain_completedWords (p : RunParams)
    (a : Nat → Except String Unit) (endT : String) (ws : List String) :
    ∀ i job, job.completedWords = i →
      List.Chain' (fun s t => s.completedWords ≤ t.completedWords)
        (job :: (bgLoopWrite p a i job ws ++
          [finishJob endT (bgLoopFinal p a i job ws)])) := by
  induction ws with
  | nil =>
    intro i job h
    simp [bgLoopWrite, bgLoopFinal, List.chain'_cons, finishJob]
  | cons w ws ih =>
    intro i job h
    have hmid : (bgStepMid job w).completedWords = i := h
    have hdone : (bgStepPush p a i w (bgStepMid job w)).completedWords
        = i + 1 := rfl
    have tail := ih (i + 1) (bgStepPush p a i w (bgStepMid job w)) rfl
    simp only [bgLoopWrite, bgLoopFinal, List.cons_append,
      List.chain'_cons] at tail ⊢
    exact ⟨by omega, by omega, tail⟩

theorem bgLoop_chain_append (p : RunParams)
    (a : Nat → Except String Unit) (endT : String) (ws : List String) :
    ∀ i job,
      List.Chain' (fun s t => t.results = s.results ∨
          ∃ r, t.results = s.results ++ [r])
        (job :: (bgLoopWrite p a i job ws ++
          [finishJob endT (bgLoopFinal p a i job ws)])) := by
  induction ws with
  | nil =>
    intro i job
    simp [bgLoopWrite, bgLoopFinal, List.chain'_cons, finishJob]
  | cons w ws ih =>
    intro i job
    have tail := ih (i + 1) (bgStepPush p a i w (bgStepMid job w))
    simp only [bgLoopWrite, bgLoopFinal, List.cons_append,
      List.chain'_cons] at tail ⊢
    refine ⟨Or.inl rfl, Or.inr ⟨mkItemResult p w (a i), rfl⟩, tail⟩

theorem bgRunOf_final_results (p : RunParams) (a : Nat → Except String Unit)
    (endT jobId startT provider style background size quality : String)
    (words : List String) :
    (bgRunOf p a endT jobId startT provider style background size quality
      words).final.results = syncLoop p a 0 words := by
  simp [bgRunOf, generateImagesInBackground, finishJob, bgLoopFinal_results,
    mkJobInfo]

/-! ## Claim theorems -/

/-- Claim C1: failure isolation in the batch runner.  If the provider call
for word `i` fails with message `msg`, a failure `ItemResult` carrying
that message is recorded at position `i`, the run still produces exactly
one result per word, and every word `j` — in particular every word after
`i` — gets the result its own provider outcome dictates, so the batch is
never aborted and no per-item error escapes the runner (the runner is a
total function into a completed run). -/
theorem failure_isolation (p : RunParams) (a : Nat → Except String Unit)
    (endT jobId startT provider style background size quality : String)
    (words : List String) (i : Nat) (msg : String)
    (hi : i < words.length) (ha : a i = .error msg) :
    (bgRunOf p a endT jobId startT provider style background size quality
        words).final.results.length = words.length ∧
    (bgRunOf p a endT jobId startT provider style background size quality
        words).final.results.get? i = some
      { url := ""
        alt := "Failed to generate image for " ++ words.get ⟨i, hi⟩ ++
          ": " ++ msg
        width := some 0
        height := some 0
        filename := ""
        word := words.get ⟨i, hi⟩ } ∧
    (∀ j (hj : j < words.length),
      (bgRunOf p a endT jobId startT provider style background size quality
          words).final.results.get? j =
        some (mkItemResult p (words.get ⟨j, hj⟩) (a j))) := by
  have hres := bgRunOf_final_results p a endT jobId startT provider style
    background size quality words
  refine ⟨?_, ?_, ?_⟩
  · rw [hres, syncLoop_length]
  · have h := syncLoop_get? p a words 0 i hi
    rw [Nat.zero_add] at h
    rw [hres, h, ha]
    rfl
  · intro j hj
    have h := syncLoop_get? p a words 0 j hj
    rw [Nat.zero_add] at h
    rw [hres, h]

/-- Claim C2: exactly one `ItemResult` is appended per input word, in
input order — each step of the record's history appends at most one
result — and the completed run's results list has one entry per word with
`word` (the source-word field) equal to the corresponding input word. -/
theorem results_one_per_word (p : RunParams) (a : Nat → Except String Unit)
    (endT jobId startT provider style background size quality : String)
    (words : List String) (_h : words ≠ []) :
    (bgRunOf p a endT jobId startT provider style background size quality
        words).final.status = .completed ∧
    (bgRunOf p a endT jobId startT provider style background size quality
        words).final.results.length = words.length ∧
    (bgRunOf p a endT jobId startT provider style background size quality
        words).final.results.map (fun r => r.word) = words ∧
    List.Chain' (fun s t => t.results = s.results ∨
        ∃ r, t.results = s.results ++ [r])
      (bgRunOf p a endT jobId startT provider style background size quality
        words).writeTrace := by
  have hres := bgRunOf_final_results p a endT jobId startT provider style
    background size quality words
  refine ⟨rfl, ?_, ?_, ?_⟩
  · rw [hres, syncLoop_length]
  · rw [hres, syncLoop_map_word]
  · exact bgLoop_chain_append p a endT words 0 _

/-- Claim C3: at every state observable while the runner may be suspended
(`obsTrace`), `completedWords` equals `results.length`; over the record's
whole mutation history (`writeTrace`), `completedWords` is non-decreasing
and bounded by `totalWords`. -/
theorem progress_invariant (p : RunParams) (a : Nat → Except String Unit)
    (endT jobId startT provider style background size quality : String)
    (words : List String) :
    (∀ s ∈ (bgRunOf p a endT jobId startT provider style background size
        quality words).obsTrace, s.completedWords = s.results.length) ∧
    List.Chain' (fun s t => s.completedWords ≤ t.completedWords)
      (bgRunOf p a endT jobId startT provider style background size quality
        words).writeTrace ∧
    (∀ s ∈ (bgRunOf p a endT jobId startT provider style background size
        quality words).writeTrace, s.completedWords ≤ s.totalWords) := by
  refine ⟨?_, ?_, ?_⟩
  · intro s hs
    simp only [bgRunOf, generateImagesInBackground, List.mem_cons,
      List.mem_append, List.mem_singleton] at hs
    rcases hs with rfl | hs | rfl | h0
    · rfl
    · exact (bgLoopObs_inv p a words 0
        (mkJobInfo jobId words.length startT provider style background size quality)
        rfl rfl s hs).2.1
    · simp only [finishJob, bgLoopFinal_results, mkJobInfo]
      rw [bgLoopFinal_completedWords p a words 0 _ rfl]
      simp [syncLoop_length]
    · exact absurd h0 (List.not_mem_nil s)
  · exact bgLoop_chain_completedWords p a endT words 0 _ rfl
  · intro s hs
    simp only [bgRunOf, generateImagesInBackground, List.mem_cons,
      List.mem_append, List.mem_singleton] at hs
    rcases hs with rfl | hs | rfl | h0
    · exact Nat.zero_le _
    · have h := bgLoopWrite_inv p a words 0
        (mkJobInfo jobId words.length startT provider style background size quality)
        rfl rfl s hs
      rw [h.2.2.1]
      simpa [mkJobInfo] using h.2.2.2.2
    · simp only [finishJob]
      rw [bgLoopFinal_completedWords p a words 0 _ rfl,
        bgLoopFinal_totalWords]
      simp [mkJobInfo]
    · exact absurd h0 (List.not_mem_nil s)

/-- Claim C4: the record's status history is exactly
started, generating, …, generating, completed — it never regresses and,
for a non-empty word list, never skips the generating stage; at every
observable state, status is completed exactly when
`completedWords = totalWords`; `endTime` is set exactly at the completed
states (the single final one), and `currentWord` is cleared there. -/
theorem status_lifecycle (p : RunParams) (a : Nat → Except String Unit)
    (endT jobId startT provider style background size quality : String)
    (words : List String) (h : words ≠ []) :
    ((bgRunOf p a endT jobId startT provider style background size quality
        words).writeTrace.map (fun s => s.status) =
      .started :: (List.replicate (2 * words.length) JobStatus.generating
        ++ [.completed])) ∧
    (∀ s ∈ (bgRunOf p a endT jobId startT provider style background size
        quality words).obsTrace,
      (s.status = .completed ↔ s.completedWords = s.totalWords)) ∧
    (∀ s ∈ (bgRunOf p a endT jobId startT provider style background size
        quality words).writeTrace,
      (s.endTime.isSome = true ↔ s.status = .completed)) ∧
    (bgRunOf p a endT jobId startT provider style background size quality
      words).final.currentWord = none ∧
    (bgRunOf p a endT jobId startT provider style background size quality
      words).final.endTime = some endT := by
  have hn : 0 < words.length := List.length_pos.mpr h
  refine ⟨?_, ?_, ?_, rfl, rfl⟩
  · simp only [bgRunOf, generateImagesInBackground, List.map_cons,
      List.map_append, List.map_cons, List.map_nil]
    rw [bgLoopWrite_statuses]
    rfl
  · intro s hs
    simp only [bgRunOf, generateImagesInBackground, List.mem_cons,
      List.mem_append, List.mem_singleton] at hs
    rcases hs with rfl | hs | rfl | h0
    · simp only [mkJobInfo]
      constructor
      · intro habs; exact absurd habs (by simp)
      · intro habs; omega
    · have hinv := bgLoopObs_inv p a words 0
        (mkJobInfo jobId words.length startT provider style background size quality)
        rfl rfl s hs
      have hlt : s.completedWords < words.length := by
        have := hinv.2.2.2.2; omega
      rw [hinv.1, hinv.2.2.1]
      simp only [mkJobInfo]
      constructor
      · intro habs; exact absurd habs (by simp)
      · intro habs; omega
    · simp only [finishJob]
      rw [bgLoopFinal_completedWords p a words 0 _ rfl,
        bgLoopFinal_totalWords]
      simp [mkJobInfo]
    · exact absurd h0 (List.not_mem_nil s)
  · intro s hs
    simp only [bgRunOf, generateImagesInBackground, List.mem_cons,
      List.mem_append, List.mem_singleton] at hs
    rcases hs with rfl | hs | rfl | h0
    · simp [mkJobInfo]
    · have hinv := bgLoopWrite_inv p a words 0
        (mkJobInfo jobId words.length startT provider style background size quality)
        rfl rfl s hs
      rw [hinv.1, hinv.2.2.2.1]
      simp [mkJobInfo]
    · simp [finishJob]
    · exact absurd h0 (List.not_mem_nil s)

/-- Witness for `failure_isolation`: three words, the mock adapter fails
exactly on the second; the second result is the recorded failure and the
third word still produces a full success result. -/
theorem failure_isolation_witness :
    (1 < (["cat", "dog", "fox"] : List String).length ∧
      mockFailSecond 1 = .error "HTTP 500") ∧
    (bgRunOf demoParams mockFailSecond "E" "job_0" "S" "dalle3" "realistic"
        "white" "1024x1024" "standard"
        ["cat", "dog", "fox"]).final.results.get? 1 = some
      { url := ""
        alt := "Failed to generate image for dog: HTTP 500"
        width := some 0
        height := some 0
        filename := ""
        word := "dog" } ∧
    (bgRunOf demoParams mockFailSecond "E" "job_0" "S" "dalle3" "realistic"
        "white" "1024x1024" "standard"
        ["cat", "dog", "fox"]).final.results.get? 2 = some
      { url := "file://generated-images/fox_2025-01-01T00-00-00-000Z.png"
        alt := "realistic image of fox"
        width := some 1024
        height := some 1024
        filename := "fox_2025-01-01T00-00-00-000Z.png"
        word := "fox" } := by
  have h := failure_isolation demoParams mockFailSecond "E" "job_0" "S"
    "dalle3" "realistic" "white" "1024x1024" "standard" ["cat", "dog", "fox"]
    1 "HTTP 500" (by decide) rfl
  refine ⟨⟨by decide, rfl⟩, ?_, ?_⟩
  · rw [h.2.1]
    decide
  · rw [h.2.2 2 (by decide)]
    decide

/-- Witness for `results_one_per_word` on the round-trip example
"cat, dog". -/
theorem results_one_per_word_witness :
    (["cat", "dog"] : List String) ≠ [] ∧
    (bgRunOf demoParams mockAllOk "E" "job_0" "S" "dalle3" "realistic"
        "white" "1024x1024" "standard"
        ["cat", "dog"]).final.results.map (fun r => r.word) =
      ["cat", "dog"] ∧
    (bgRunOf demoParams mockAllOk "E" "job_0" "S" "dalle3" "realistic"
        "white" "1024x1024" "standard"
        ["cat", "dog"]).final.results.length = 2 := by
  have h := results_one_per_word demoParams mockAllOk "E" "job_0" "S"
    "dalle3" "realistic" "white" "1024x1024" "standard" ["cat", "dog"]
    (by decide)
  exact ⟨by decide, h.2.2.1, h.2.1⟩

/-- Witness for `status_lifecycle` on a one-word batch: the record's
status history is exactly started, generating, generating, completed. -/
theorem status_lifecycle_witness :
    (["cat"] : List String) ≠ [] ∧
    (bgRunOf demoParams mockAllOk "E" "job_0" "S" "dalle3" "realistic"
        "white" "1024x1024" "standard"
        ["cat"]).writeTrace.map (fun s => s.status) =
      [.started, .generating, .generating, .completed] ∧
    (bgRunOf demoParams mockAllOk "E" "job_0" "S" "dalle3" "realistic"
        "white" "1024x1024" "standard" ["cat"]).final.currentWord = none := by
  have h := status_lifecycle demoParams mockAllOk "E" "job_0" "S" "dalle3"
    "realistic" "white" "1024x1024" "standard" ["cat"] (by decide)
  refine ⟨by decide, ?_, h.2.2.2.1⟩
  rw [h.1]
  rfl

theorem strAppend_right_cancel (a b c : String) : a ++ c = b ++ c ↔ a = b := by
  rw [String.ext_iff, String.ext_iff]
  show a.data ++ c.data = b.data ++ c.data ↔ a.data = b.data
  exact List.append_left_inj c.data

theorem strAppend_left_cancel (a b c : String) : a ++ b = a ++ c ↔ b = c := by
  rw [String.ext_iff, String.ext_iff]
  show a.data ++ b.data = a.data ++ c.data ↔ b.data = c.data
  exact List.append_right_inj a.data

/-- Claim C5 counterexample: the same word twice in one batch produces the
same filename for both items — the second write targets the file of the
first, contradicting the claimed intra-batch collision resistance. -/
theorem filename_collision_cex :
    (bgRunOf demoParams mockAllOk "E" "job_0" "S" "dalle3" "realistic"
        "white" "1024x1024" "standard"
        ["cat", "cat"]).final.results.map (fun r => r.filename) =
      ["cat_2025-01-01T00-00-00-000Z.png",
       "cat_2025-01-01T00-00-00-000Z.png"] ∧
    itemFilename demoParams "cat" = itemFilename demoParams "cat" := by
  exact ⟨by decide, rfl⟩

/-- Claim C5 (amended): each item's filename is the sanitized word plus
the batch timestamp shared by the job.  Within one batch (fixed
timestamp), two items collide exactly when their sanitized words are
equal — so two occurrences of the same word in one batch DO collide — and
for a fixed word, batches with distinct timestamps never collide, so the
same word across batches does not overwrite the earlier file. -/
theorem filename_scheme (p q : RunParams) (w w₁ w₂ : String)
    (ht : p.timestamp ≠ q.timestamp) :
    (itemFilename p w₁ = itemFilename p w₂ ↔
      sanitizeFilename w₁ = sanitizeFilename w₂) ∧
    itemFilename p w ≠ itemFilename q w := by
  constructor
  · unfold itemFilename
    rw [strAppend_right_cancel, strAppend_right_cancel,
      strAppend_right_cancel]
  · unfold itemFilename
    intro habs
    rw [strAppend_right_cancel] at habs
    have h1 : (sanitizeFilename w ++ "_") ++ p.timestamp =
        (sanitizeFilename w ++ "_") ++ q.timestamp := by
      simpa [String.append_assoc] using habs
    rw [strAppend_left_cancel] at h1
    exact ht h1

/-- Witness for `filename_scheme`: distinct timestamps separate the same
word across batches; within one batch "cat!" and "cat?" collide because
they sanitize identically. -/
theorem filename_scheme_witness :
    demoParams.timestamp ≠ "T2" ∧
    itemFilename demoParams "cat" ≠
      itemFilename { demoParams with timestamp := "T2" } "cat" ∧
    (itemFilename demoParams "cat!" = itemFilename demoParams "cat?" ↔
      sanitizeFilename "cat!" = sanitizeFilename "cat?") ∧
    sanitizeFilename "cat!" = sanitizeFilename "cat?" := by
  have h := filename_scheme demoParams
    { demoParams with timestamp := "T2" } "cat" "cat!" "cat?" (by decide)
  exact ⟨by decide, h.2, h.1, by decide⟩

/-- Claim C6 (code-bug exhibit): the fallback key `ghibli` is absent from
the style table, so for an unrecognized style key `buildPrompt`
interpolates an undefined descriptor and the prompt contains the literal
text "undefined" instead of a defined non-empty table entry. -/
theorem style_fallback_bug :
    styles "ghibli" = none ∧
    jsOrString (styles "watercolor") (styles "ghibli") = none ∧
    buildPrompt "cat" "watercolor" "white" =
      "white background, undefined, cat" := by
  refine ⟨rfl, rfl, by decide⟩

/-- Claim C7 counterexample: the DALL-E branch of the background runner
sends its request with no timeout at all (no AbortController and no
`signal` on the fetch, source lines 195-208), so it is not the case that
every provider branch of the background runner runs under a timeout
budget. -/
theorem dalle_bg_no_timeout_cex :
    dalleBgRequest.timeoutMs.isSome = false := rfl

/-- Claim C7 (amended): only the Stability branch of the background
runner has a hard-abort timeout (90 s), whose expiry is recorded as a
failure ItemResult carrying the timeout message; the DALL-E branch of the
background runner has none (the 60 s DALL-E and 90 s Stability aborts
exist only on the synchronous path). -/
theorem timeout_budgets :
    dalleBgRequest.timeoutMs = none ∧
    stabilityBgRequest.timeoutMs = some 90000 ∧
    dalleSyncRequest.timeoutMs = some 60000 ∧
    stabilitySyncRequest.timeoutMs = some 90000 ∧
    (∀ (k w : String) (p : RunParams),
      mkItemResult p w (stabilityBgAttempt (some k) .abortError) =
        { url := ""
          alt := "Failed to generate image for " ++ w ++ ": " ++
            "Stability API request timed out after 90 seconds"
          width := some 0
          height := some 0
          filename := ""
          word := w }) :=
  ⟨rfl, rfl, rfl, rfl, fun _ _ _ => rfl⟩

theorem filter_url_complement (l : List ItemResult) :
    (l.filter (fun r => decide (0 < r.url.length))).length +
      (l.filter (fun r => decide (r.url.length = 0))).length = l.length := by
  induction l with
  | nil => rfl
  | cons r t ih =>
    by_cases hr : 0 < r.url.length
    · have hz : ¬(r.url.length = 0) := by omega
      simp [List.filter_cons, hr, hz]
      omega
    · have hz : r.url.length = 0 := by omega
      simp [List.filter_cons, hz]
      omega

/-- Claim C8: `checkStatus` throws the NotFound error exactly when the id
is not in the registry; for a registered record it returns the pure
projection `statusViewOf` (the record is not written — the projection is a
function of the record); the results list and the derived success and
failure counts are present in the view exactly when the job is completed,
with the success count the number of results with a non-empty url and the
failure count its complement. -/
theorem checkStatus_contract :
    (∀ st jobId, (checkStatus st jobId =
        .error ("Job not found: " ++ jobId) ↔
      st.activeJobs.lookup jobId = none)) ∧
    (∀ st jobId j, st.activeJobs.lookup jobId = some j →
      checkStatus st jobId = .ok (statusViewOf j) ∧
      ((statusViewOf j).results.isSome = true ↔ j.status = .completed) ∧
      ((statusViewOf j).successCount.isSome = true ↔
        j.status = .completed) ∧
      ((statusViewOf j).failureCount.isSome = true ↔
        j.status = .completed) ∧
      (j.status = .completed →
        (statusViewOf j).results = some j.results ∧
        (statusViewOf j).successCount = some
          ((j.results.filter (fun r => decide (0 < r.url.length))).length) ∧
        (statusViewOf j).failureCount = some
          (j.results.length -
            (j.results.filter
              (fun r => decide (0 < r.url.length))).length))) := by
  constructor
  · intro st jobId
    cases h : st.activeJobs.lookup jobId with
    | none => simp [checkStatus, h]
    | some j => simp [checkStatus, h]
  · intro st jobId j h
    refine ⟨by simp [checkStatus, h], ?_, ?_, ?_, ?_⟩
    · by_cases hc : j.status = .completed <;> simp [statusViewOf, hc]
    · by_cases hc : j.status = .completed <;> simp [statusViewOf, hc]
    · by_cases hc : j.status = .completed <;> simp [statusViewOf, hc]
    · intro hc
      refine ⟨by simp [statusViewOf, hc], by simp [statusViewOf, hc], ?_⟩
      have hcompl := filter_url_complement j.results
      simp only [statusViewOf, hc, if_true, if_pos]
      congr 1
      omega

/-- Witness for `checkStatus_contract`: a registry holding one completed
job (one success, one failure); an unknown id yields the NotFound error,
the known id yields the projection with success count 1 and failure
count 1. -/
theorem checkStatus_contract_witness :
    demoState.activeJobs.lookup "missing" = none ∧
    checkStatus demoState "missing" = .error "Job not found: missing" ∧
    demoState.activeJobs.lookup "job_0" = some demoCompletedJob ∧
    checkStatus demoState "job_0" = .ok (statusViewOf demoCompletedJob) ∧
    (statusViewOf demoCompletedJob).successCount = some 1 ∧
    (statusViewOf demoCompletedJob).failureCount = some 1 := by
  have h1 := (checkStatus_contract.1 demoState "missing").mpr rfl
  have h2 := checkStatus_contract.2 demoState "job_0" demoCompletedJob rfl
  have hsucc := (h2.2.2.2.2 rfl).2.1
  have hfail := (h2.2.2.2.2 rfl).2.2
  refine ⟨rfl, h1, rfl, h2.1, ?_, ?_⟩
  · rw [hsucc]
    decide
  · rw [hfail]
    decide

theorem parseWordList_eq_nil_iff (words : String) :
    parseWordList words = [] ↔
      ∀ t ∈ jsSplit ',' words, (jsTrim t).length = 0 := by
  rw [parseWordList, List.filter_eq_nil_iff]
  constructor
  · intro h t ht
    have := h (jsTrim t) (List.mem_map_of_mem _ ht)
    simpa using this
  · intro h w hw
    rcases List.mem_map.mp hw with ⟨t, ht, rfl⟩
    simp [h t ht]

theorem generateImagesAsync_error_iff
    (provider style background size quality startT words : String)
    (st : ServerState) :
    (generateImagesAsync provider style background size quality startT
        words st).response = .error "No valid words provided." ↔
      parseWordList words = [] := by
  by_cases hnil : (parseWordList words).length = 0
  · simp [generateImagesAsync, hnil, List.length_eq_zero.mp hnil]
  · simp only [generateImagesAsync, hnil, if_false]
    constructor
    · intro habs
      exact absurd habs (by simp)
    · intro habs
      exact absurd (by simp [habs]) hnil

theorem generateImagesSync_error_iff (p : RunParams)
    (a : Nat → Except String Unit) (words : String) :
    generateImagesSync p a words = .error "No valid words provided." ↔
      parseWordList words = [] := by
  by_cases hnil : (parseWordList words).length = 0
  · simp [generateImagesSync, hnil, List.length_eq_zero.mp hnil]
  · simp only [generateImagesSync, hnil, if_false]
    constructor
    · intro habs
      exact absurd habs (by simp)
    · intro habs
      exact absurd (by simp [habs]) hnil

/-- Claim C9: both generation paths throw the validation error exactly
when no token of the comma-split input is non-empty after trimming —
so an input with at least one usable word never raises the validation
error, and an all-blank input always does, on the asynchronous and the
synchronous path alike. -/
theorem empty_words_validation (p : RunParams)
    (a : Nat → Except String Unit)
    (provider style background size quality startT words : String)
    (st : ServerState) :
    ((generateImagesAsync provider style background size quality startT
        words st).response = .error "No valid words provided." ↔
      ∀ t ∈ jsSplit ',' words, (jsTrim t).length = 0) ∧
    (generateImagesSync p a words = .error "No valid words provided." ↔
      ∀ t ∈ jsSplit ',' words, (jsTrim t).length = 0) := by
  rw [generateImagesAsync_error_iff, generateImagesSync_error_iff,
    parseWordList_eq_nil_iff]
  exact ⟨Iff.rfl, Iff.rfl⟩

/-- Claim C10: when the asynchronous path rejects the input with the
empty-word-list validation error, the server state is exactly the input
state — no identifier is drawn from the supply, no record is added to the
registry — and no background task is started. -/
theorem validation_atomicity
    (provider style background size quality startT words : String)
    (st : ServerState) (h : parseWordList words = []) :
    (generateImagesAsync provider style background size quality startT
      words st).state = st ∧
    (generateImagesAsync provider style background size quality startT
      words st).startedJob = none ∧
    (generateImagesAsync provider style background size quality startT
      words st).response = .error "No valid words provided." := by
  refine ⟨?_, ?_, ?_⟩ <;> simp [generateImagesAsync, h]

/-- Witness for `validation_atomicity`: the all-blank input " , ," leaves
an empty registry untouched. -/
theorem validation_atomicity_witness :
    parseWordList " , ," = [] ∧
    (generateImagesAsync "dalle3" "realistic" "white" "1024x1024"
      "standard" "S" " , ," ⟨[], 0⟩).state = ⟨[], 0⟩ ∧
    (generateImagesAsync "dalle3" "realistic" "white" "1024x1024"
      "standard" "S" " , ," ⟨[], 0⟩).startedJob = none := by
  have h := validation_atomicity "dalle3" "realistic" "white" "1024x1024"
    "standard" "S" " , ," ⟨[], 0⟩ (by decide)
  exact ⟨by decide, h.1, h.2.1⟩

end MCPImages
